import Mathlib

/-!
Verification development for the Egyptian License Plate Recognition System.

The repository ships the React/TypeScript frontend (`src/frontend/src/lib/api.ts`
and the pages under `src/frontend/src/pages`) together with a README describing
the backend detection pipeline.  The frontend API client is embedded directly
from `api.ts`.  The backend components (Job Controller, Governorate Classifier,
Plate Assembler, Cross-Frame Tracker) are not part of the shipped sources, so
they are modelled from the specification, as flagged on each definition.
-/

namespace Elpr

/-! ## Frontend API client, embedded from `src/frontend/src/lib/api.ts` -/

/-- Embeds the constant `API_BASE` of `api.ts`. -/
def API_BASE : String := "http://localhost:8000"

/-- Embeds a JavaScript string value as it may arrive at `staticUrl`,
which accepts `string | null | undefined`. -/
inductive JsStr where
  | null
  | undefined
  | str (s : String)
deriving DecidableEq

/-- Embeds JavaScript truthiness of `path` in `if (!path) return ""`:
`null`, `undefined` and the empty string are falsy. -/
def JsStr.isFalsy : JsStr → Bool
  | .null => true
  | .undefined => true
  | .str s => s.isEmpty

/-- Embeds JavaScript template-literal stringification of the value,
as in the template string of `staticUrl`. -/
def JsStr.asJsString : JsStr → String
  | .null => "null"
  | .undefined => "undefined"
  | .str s => s

/-- Embeds `staticUrl` of `api.ts`:
`if (!path) return ""; return API_BASE + "/static/" + path`. -/
def staticUrl (path : JsStr) : String :=
  if path.isFalsy then ""
  else API_BASE ++ "/static/" ++ path.asJsString

/-- Embeds the `sentry_token` slot of `localStorage`: the only persistent
state the API client reads or writes. -/
abbrev TokenStore := Option String

/-- Embeds `getToken` of `api.ts`: `localStorage.getItem("sentry_token")`. -/
def getToken (st : TokenStore) : Option String := st

/-- Embeds `setToken` of `api.ts`: `localStorage.setItem("sentry_token", token)`. -/
def setToken (_st : TokenStore) (token : String) : TokenStore := some token

/-- Embeds `clearToken` of `api.ts`: `localStorage.removeItem("sentry_token")`. -/
def clearToken (_st : TokenStore) : TokenStore := none

/-- Embeds `Response.ok` of the `fetch` API used by `request`:
true exactly when the status code is in the range 200 to 299. -/
def respOk (status : Nat) : Bool := 200 ≤ status && status ≤ 299

/-- Decides whether `needle` occurs as a contiguous substring of the
remaining characters, embedding JavaScript `String.includes`. -/
def containsSub (needle : List Char) : List Char → Bool
  | [] => needle.isEmpty
  | c :: t => needle.isPrefixOf (c :: t) || containsSub needle t

/-- Embeds `res.headers.get("content-type")?.includes("text/csv")` of
`request`: a missing header is `null`, and optional chaining makes the
whole test falsy. -/
def contentTypeIsCsv (ct : Option String) : Bool :=
  match ct with
  | some s => containsSub "text/csv".toList s.toList
  | none => false

/-- Embeds the JavaScript expression `v || dflt` on an optional string:
`null`, `undefined` and `""` fall through to the default. -/
def jsOrElse (v : Option String) (dflt : String) : String :=
  match v with
  | some s => if s.isEmpty then dflt else s
  | none => dflt

/-- Embeds the observable parts of a `fetch` response as consumed by
`request`: the status code, `statusText`, the `content-type` header, and
the result of `await res.json().catch(() => ({ detail: res.statusText }))` —
`none` models a body that fails to parse as JSON, `some d` a parsed object
whose `detail` field is `d` (`none` inside when the field is absent). -/
structure FetchResponse where
  status : Nat
  statusText : String
  contentType : Option String
  detailField : Option (Option String)
deriving DecidableEq

/-- Embeds the possible outcomes of `request` after the response arrives:
a thrown `Error` with its message, a CSV blob result, or a JSON result. -/
inductive RequestOutcome where
  | thrown (message : String)
  | blobValue
  | jsonValue
deriving DecidableEq

/-- Embeds the response-handling tail of `request` in `api.ts`
(lines 39 to 54): on 401 clear the token and throw `"Unauthorized"`; on any
other non-ok status throw `error.detail || "API Error"` without touching the
token; on ok return a blob for `text/csv` and parsed JSON otherwise. -/
def handleResponse (st : TokenStore) (res : FetchResponse) : TokenStore × RequestOutcome :=
  if res.status = 401 then
    (clearToken st, .thrown "Unauthorized")
  else if !respOk res.status then
    let errDetail : Option String :=
      match res.detailField with
      | some d => d
      | none => some res.statusText
    (st, .thrown (jsOrElse errDetail "API Error"))
  else if contentTypeIsCsv res.contentType then
    (st, .blobValue)
  else
    (st, .jsonValue)

/-- Sets one key of a header map, embedding `headers[k] = v` on the
JavaScript header object built by `request`. -/
def headerSet (hm : String → Option String) (k v : String) : String → Option String :=
  fun q => if q = k then some v else hm q

/-- Embeds the header construction of `request` (lines 23 to 35 of `api.ts`):
spread the caller's headers, add `Authorization: Bearer <token>` under the
JavaScript truthiness test `if (token)` — false for both a null and an
empty-string stored token — and add `Content-Type: application/json` unless
the body is a `FormData` instance. -/
def buildHeaders (callerHeaders : String → Option String) (token : Option String)
    (bodyIsFormData : Bool) : String → Option String :=
  let h1 := callerHeaders
  let h2 := match token with
    | some t => if t.isEmpty then h1 else headerSet h1 "Authorization" ("Bearer " ++ t)
    | none => h1
  if bodyIsFormData then h2 else headerSet h2 "Content-Type" "application/json"

/-! ## Job Controller -/

/-- Job status values of the spec's Job state machine; the frontend's
`JobResponse.status` strings range over exactly these five values. -/
inductive JobStatus where
  | queued
  | processing
  | completed
  | failed
  | cancelled
deriving DecidableEq

/-- True on the absorbing statuses `completed`, `failed` and `cancelled`. -/
def JobStatus.isTerminal : JobStatus → Bool
  | .completed => true
  | .failed => true
  | .cancelled => true
  | _ => false

/-- The progress-bearing fields of a Job, mirroring the fields of the
frontend's `JobResponse` that the claims speak about. -/
structure Job where
  total_frames : Nat
  processed_frames : Nat
  detections_count : Nat
  status : JobStatus
  error_message : Option String
deriving DecidableEq

/-- Modelled from the spec: the backend Job Controller (spec section 4.7) is
not in the shipped sources — only its frontend consumer is.  Transitions:
`queued → processing` on pipeline start; while `processing`, each frame fully
passed through the pipeline increments `processed_frames` exactly once (a
frame remains only while `processed_frames < total_frames`) and may add
detections; `processing → completed` when the frame source is exhausted;
`processing → failed` on an unrecoverable error, recording the
human-readable `error_message`; `processing → cancelled` on an external
cancellation observed at a frame boundary. -/
inductive JobStep : Job → Job → Prop where
  | start (j : Job) : j.status = .queued →
      JobStep j { j with status := .processing }
  | frame (j : Job) (newDetections : Nat) : j.status = .processing →
      j.processed_frames < j.total_frames →
      JobStep j { j with processed_frames := j.processed_frames + 1,
                         detections_count := j.detections_count + newDetections }
  | complete (j : Job) : j.status = .processing →
      j.processed_frames = j.total_frames →
      JobStep j { j with status := .completed }
  | fail (j : Job) (msg : String) : j.status = .processing →
      JobStep j { j with status := .failed, error_message := some msg }
  | cancel (j : Job) : j.status = .processing →
      JobStep j { j with status := .cancelled }

/-- Zero or more Job Controller steps: what can happen between two polls. -/
def JobReach : Job → Job → Prop := Relation.ReflTransGen JobStep

/-- Modelled from the spec: the backend image-upload path is not in the
shipped sources.  Spec section 4.7: "Image jobs skip `processing` and resolve
synchronously to `completed`/`failed`"; an inference or decode failure is
fatal for image jobs (sections 4.1 and 7).  `detections` is `some n` when the
single frame was processed and yielded `n` records, `none` on failure. -/
def runImageJob (detections : Option Nat) (errMsg : String) : Job :=
  match detections with
  | some n =>
      { total_frames := 1, processed_frames := 1, detections_count := n,
        status := .completed, error_message := none }
  | none =>
      { total_frames := 1, processed_frames := 0, detections_count := 0,
        status := .failed, error_message := some errMsg }

/-! ## Governorate Classifier -/

/-- The 27 governorates listed in the README's "Supported Governorates"
table, plus the `unknown` default. -/
inductive GovernorateLabel where
  | cairo
  | giza
  | alexandria
  | sharqia
  | dakahlia
  | monufia
  | beheira
  | kafrElSheikh
  | gharbia
  | qalyubia
  | fayoum
  | beniSuef
  | minya
  | assiut
  | sohag
  | suez
  | ismailia
  | portSaid
  | damietta
  | northSinai
  | southSinai
  | redSea
  | matrouh
  | newValley
  | qena
  | luxor
  | aswan
  | unknown
deriving DecidableEq

/-- The classifier's input: letter count, digit count and the letter
pattern of an assembled plate reading (spec section 4.4). -/
structure PlateShape where
  letter_count : Nat
  digit_count : Nat
  letter_pattern : List Char
deriving DecidableEq

/-- One entry of the ordered governorate rule table: a pattern predicate
and the label it assigns. -/
structure GovRule where
  matchesShape : PlateShape → Bool
  label : GovernorateLabel

/-- Modelled from the spec: the backend Governorate Classifier (spec
section 4.4, README "Governorate Classifier" box) is not in the shipped
sources.  The ordered rule table is evaluated top to bottom, the first
matching rule wins, and no match yields `unknown`. -/
def classifyGovernorate (rules : List GovRule) (s : PlateShape) : GovernorateLabel :=
  match rules.find? (fun r => r.matchesShape s) with
  | some r => r.label
  | none => .unknown

/-- The two rule rows the README states explicitly: Cairo for 3 letters and
3 digits, Giza for 2 letters and 4 digits. -/
def governorateTable : List GovRule :=
  [ { matchesShape := fun s => s.letter_count == 3 && s.digit_count == 3,
      label := .cairo },
    { matchesShape := fun s => s.letter_count == 2 && s.digit_count == 4,
      label := .giza } ]

/-! ## Plate Assembler -/

/-- A bounding box in pixel coordinates, as in the spec's data model. -/
structure BBox where
  x : Nat
  y : Nat
  w : Nat
  h : Nat
deriving DecidableEq

/-- Twice the horizontal center of a box (kept in naturals; comparisons of
doubled centers agree with comparisons of the centers themselves). -/
def BBox.cx2 (b : BBox) : Nat := 2 * b.x + b.w

/-- Twice the vertical center of a box. -/
def BBox.cy2 (b : BBox) : Nat := 2 * b.y + b.h

/-- The fixed set of character classes the OCR detector (`best.pt`) is
trained on: Arabic letters used on Egyptian plates plus the ten digits.
The README's "Arabic Map" box converts these class names to characters. -/
inductive GlyphClass where
  | alef
  | beh
  | gem
  | dal
  | reh
  | sen
  | sad
  | tah
  | ein
  | feh
  | qaf
  | lam
  | mem
  | noon
  | heh
  | waw
  | yeh
  | d0
  | d1
  | d2
  | d3
  | d4
  | d5
  | d6
  | d7
  | d8
  | d9
deriving DecidableEq

/-- Modelled from the spec: the backend's static class-to-glyph lookup
table ("Arabic Map" in the README) is not in the shipped sources.  It is a
total map on the detector's class set, so no glyph is dropped. -/
def glyphChar : GlyphClass → Char
  | .alef => 'ا'
  | .beh => 'ب'
  | .gem => 'ج'
  | .dal => 'د'
  | .reh => 'ر'
  | .sen => 'س'
  | .sad => 'ص'
  | .tah => 'ط'
  | .ein => 'ع'
  | .feh => 'ف'
  | .qaf => 'ق'
  | .lam => 'ل'
  | .mem => 'م'
  | .noon => 'ن'
  | .heh => 'ه'
  | .waw => 'و'
  | .yeh => 'ي'
  | .d0 => '٠'
  | .d1 => '١'
  | .d2 => '٢'
  | .d3 => '٣'
  | .d4 => '٤'
  | .d5 => '٥'
  | .d6 => '٦'
  | .d7 => '٧'
  | .d8 => '٨'
  | .d9 => '٩'

/-- One glyph RawDetection inside a cropped plate region: a class label, a
bounding box and a confidence (scaled to an integer per mille). -/
structure GlyphDetection where
  cls : GlyphClass
  box : BBox
  confidence : Nat
deriving DecidableEq

/-- Modelled from the spec: the Plate Assembler's reading order (spec
section 4.3) — a glyph comes first when its horizontal center is strictly
greater (right-to-left), and ties in horizontal position are broken by
vertical center, topmost first. -/
def glyphOrder (a b : GlyphDetection) : Prop :=
  b.box.cx2 < a.box.cx2 ∨ (a.box.cx2 = b.box.cx2 ∧ a.box.cy2 ≤ b.box.cy2)

instance : DecidableRel glyphOrder := fun a b => by
  unfold glyphOrder
  infer_instance

instance : IsTotal GlyphDetection glyphOrder :=
  ⟨by intro a b; unfold glyphOrder; omega⟩

instance : IsTrans GlyphDetection glyphOrder :=
  ⟨by intro a b c; unfold glyphOrder; omega⟩

/-- Modelled from the spec: the Assembler's spatial sort of the glyph
detections of one plate region. -/
def sortGlyphs (gs : List GlyphDetection) : List GlyphDetection :=
  List.insertionSort glyphOrder gs

/-- Modelled from the spec: the assembled plate string — the sorted glyphs
mapped through the static class-to-glyph table and concatenated. -/
def assembleString (gs : List GlyphDetection) : String :=
  String.mk ((sortGlyphs gs).map (fun g => glyphChar g.cls))

/-! ## Cross-Frame Tracker -/

/-- Length of the overlap of two 1-dimensional segments (truncated
subtraction makes disjoint segments overlap zero). -/
def segLen (a1 l1 a2 l2 : Nat) : Nat := min (a1 + l1) (a2 + l2) - max a1 a2

/-- Area of a box. -/
def BBox.area (b : BBox) : Nat := b.w * b.h

/-- Intersection area of two boxes. -/
def BBox.interArea (b1 b2 : BBox) : Nat :=
  segLen b1.x b1.w b2.x b2.w * segLen b1.y b1.h b2.y b2.h

/-- Union area of two boxes. -/
def BBox.unionArea (b1 b2 : BBox) : Nat := b1.area + b2.area - b1.interArea b2

/-- Decides IoU(b1, b2) > num/den without leaving the naturals:
inter/union > num/den exactly when num * union < inter * den. -/
def iouExceeds (b1 b2 : BBox) (num den : Nat) : Bool :=
  num * b1.unionArea b2 < b1.interArea b2 * den

/-- Decides IoU(c, b1) > IoU(c, b2) by cross-multiplying the two
intersection-over-union fractions. -/
def iouGreater (c b1 b2 : BBox) : Bool :=
  c.interArea b2 * c.unionArea b1 < c.interArea b1 * c.unionArea b2

/-- Levenshtein edit distance between two character lists, the string
tolerance of the tracker's continuation test (spec section 4.5). -/
def editDistance : List Char → List Char → Nat
  | [], ys => ys.length
  | xs, [] => xs.length
  | x :: xs, y :: ys =>
      if x = y then editDistance xs ys
      else 1 + min (editDistance xs (y :: ys)) (min (editDistance (x :: xs) ys) (editDistance xs ys))
termination_by xs ys => xs.length + ys.length
decreasing_by
  all_goals simp [List.length_cons]
  all_goals omega

/-- One frame's assembled plate reading, as consumed by the tracker. -/
structure PlateCandidate where
  text : List Char
  box : BBox
  confidence : Nat
  frame_index : Nat
deriving DecidableEq

/-- A persistent plate identity within one video job (spec data model):
its id, the candidates appended so far in frame order, the running
best-confidence candidate, the last known box for IoU continuation, the
consecutive-miss counter and the closed flag. -/
structure Track where
  track_id : Nat
  candidates : List PlateCandidate
  best : PlateCandidate
  lastBox : BBox
  framesSinceMatch : Nat
  closed : Bool
deriving DecidableEq

/-- The tracker's tunable parameters: the IoU continuation threshold as a
fraction num/den, the edit-distance tolerance, and the consecutive-miss
limit after which a track closes. -/
structure TrackerConfig where
  iouNum : Nat
  iouDen : Nat
  editTolerance : Nat
  missLimit : Nat

/-- Modelled from the spec: the continuation test of tracker step 2 —
only a live (not closed) track can accept the candidate, the IoU with the
track's last box must exceed the threshold, and the assembled string must
be within the edit-distance tolerance of the track's running best string. -/
def candMatches (cfg : TrackerConfig) (c : PlateCandidate) (t : Track) : Bool :=
  !t.closed && iouExceeds c.box t.lastBox cfg.iouNum cfg.iouDen &&
    decide (editDistance c.text t.best.text ≤ cfg.editTolerance)

/-- Modelled from the spec: strict preference between two tracks competing
for the same candidate — strictly larger IoU wins, and at equal IoU the
smaller `track_id` (the older track) wins. -/
def strictlyBetter (c : BBox) (t u : Track) : Bool :=
  iouGreater c t.lastBox u.lastBox ||
    (!iouGreater c t.lastBox u.lastBox && !iouGreater c u.lastBox t.lastBox &&
      t.track_id < u.track_id)

/-- Selects the preferred track among the live tracks for a candidate box,
scanning the track list and replacing the current choice only when a track
is strictly better under `strictlyBetter`. -/
def pickBest (c : BBox) (ts : List Track) : Option Track :=
  ts.foldl
    (fun acc t =>
      match acc with
      | none => some t
      | some u => if strictlyBetter c t u then some t else some u)
    none

/-- The live (not closed) tracks. -/
def liveTracks (ts : List Track) : List Track := ts.filter (fun t => !t.closed)

/-- Modelled from the spec: appending a matched candidate to a track —
the candidate list grows at the end, the best candidate is replaced when
the new confidence is strictly higher, the last box advances, and the
consecutive-miss counter resets. -/
def appendCandidate (c : PlateCandidate) (t : Track) : Track :=
  { t with candidates := t.candidates ++ [c],
           best := if t.best.confidence < c.confidence then c else t.best,
           lastBox := c.box,
           framesSinceMatch := 0 }

/-- A freshly opened track seeded by an unmatched candidate. -/
def newTrack (id : Nat) (c : PlateCandidate) : Track :=
  { track_id := id, candidates := [c], best := c, lastBox := c.box,
    framesSinceMatch := 0, closed := false }

/-- The tracker's mutable state for one video job: the next fresh track id
and the tracks opened so far (live and closed). -/
structure TrackerState where
  nextId : Nat
  tracks : List Track

/-- Modelled from the spec: tracker steps 1 to 3 for one incoming
PlateCandidate — pick the preferred live track; when it passes the
IoU-and-string continuation test, append the candidate to that track
(closed tracks are never touched); otherwise open a new track. -/
def stepCandidate (cfg : TrackerConfig) (c : PlateCandidate) (st : TrackerState) : TrackerState :=
  match pickBest c.box (liveTracks st.tracks) with
  | some t =>
      if candMatches cfg c t then
        { st with tracks := st.tracks.map fun u =>
            if !u.closed && u.track_id == t.track_id then appendCandidate c u else u }
      else
        { nextId := st.nextId + 1, tracks := st.tracks ++ [newTrack st.nextId c] }
  | none => { nextId := st.nextId + 1, tracks := st.tracks ++ [newTrack st.nextId c] }

/-- Closes a track. -/
def closeTrack (t : Track) : Track := { t with closed := true }

/-- Modelled from the spec: tracker step 4 at a frame boundary — every
live track's consecutive-miss counter advances (a track matched in this
frame was just reset to zero), and a live track whose counter passes the
miss limit is closed and emitted.  Closed tracks are untouched. -/
def endFrame (cfg : TrackerConfig) (st : TrackerState) : TrackerState :=
  { st with tracks := st.tracks.map fun t =>
      if t.closed then t
      else
        let t1 := { t with framesSinceMatch := t.framesSinceMatch + 1 }
        if cfg.missLimit < t1.framesSinceMatch then closeTrack t1 else t1 }

/-- Modelled from the spec: tracker step 5 — at end-of-stream every
remaining live track is force-closed and emitted. -/
def endOfStream (st : TrackerState) : TrackerState :=
  { st with tracks := st.tracks.map closeTrack }

/-- One observable tracker transition: consuming a candidate, crossing a
frame boundary, or reaching end-of-stream. -/
inductive TrackerStep (cfg : TrackerConfig) : TrackerState → TrackerState → Prop where
  | candidate (c : PlateCandidate) (st : TrackerState) :
      TrackerStep cfg st (stepCandidate cfg c st)
  | frameBoundary (st : TrackerState) :
      TrackerStep cfg st (endFrame cfg st)
  | streamEnd (st : TrackerState) :
      TrackerStep cfg st (endOfStream st)

/-- Zero or more tracker transitions. -/
def TrackerReach (cfg : TrackerConfig) : TrackerState → TrackerState → Prop :=
  Relation.ReflTransGen (TrackerStep cfg)

/-! ## Concrete sample values used by the witnesses -/

/-- A sample tracker configuration: IoU threshold 3/10, edit tolerance 1,
miss limit 5. -/
def demoCfg : TrackerConfig :=
  { iouNum := 3, iouDen := 10, editTolerance := 1, missLimit := 5 }

/-- A sample candidate. -/
def demoCand : PlateCandidate :=
  { text := ['ا', 'ب', '٣'], box := { x := 10, y := 10, w := 40, h := 20 },
    confidence := 900, frame_index := 1 }

/-- A sample tracker state holding one closed track and one live track. -/
def demoState : TrackerState :=
  { nextId := 2,
    tracks :=
      [ { track_id := 0, candidates := [demoCand], best := demoCand,
          lastBox := demoCand.box, framesSinceMatch := 6, closed := true },
        { track_id := 1, candidates := [demoCand], best := demoCand,
          lastBox := { x := 200, y := 10, w := 40, h := 20 },
          framesSinceMatch := 0, closed := false } ] }

/-- A freshly queued sample video job with two frames. -/
def jobQ : Job :=
  { total_frames := 2, processed_frames := 0, detections_count := 0,
    status := .queued, error_message := none }

/-- The sample job after the pipeline starts. -/
def jobP : Job := { jobQ with status := .processing }

/-- The sample job after its first frame is processed. -/
def jobP1 : Job := { jobP with processed_frames := 1, detections_count := 0 }

/-- A sample job in the terminal `completed` status. -/
def jobDone : Job :=
  { total_frames := 2, processed_frames := 2, detections_count := 3,
    status := .completed, error_message := none }

/-- A sample 401 response. -/
def res401 : FetchResponse :=
  { status := 401, statusText := "Unauthorized", contentType := none,
    detailField := some none }

/-- A sample 500 response whose body is not valid JSON. -/
def res500 : FetchResponse :=
  { status := 500, statusText := "Internal Server Error", contentType := none,
    detailField := none }

/-- The caller headers of every `request` call site in `api.ts`: none of
them passes an explicit header object. -/
def noHeaders : String → Option String := fun _ => none

/-- A sample plate shape matching the README's Cairo row. -/
def demoShapeCairo : PlateShape :=
  { letter_count := 3, digit_count := 3, letter_pattern := ['ا', 'ب', 'ج'] }

/-- A sample plate shape matching no rule of the README table. -/
def demoShapeNone : PlateShape :=
  { letter_count := 1, digit_count := 1, letter_pattern := ['ا'] }

/-- A sample pair of glyph detections. -/
def demoGlyphs : List GlyphDetection :=
  [ { cls := .beh, box := { x := 0, y := 0, w := 10, h := 10 }, confidence := 800 },
    { cls := .d3, box := { x := 20, y := 0, w := 10, h := 10 }, confidence := 900 } ]

/-! ## Helper lemmas -/

/-- A Job Controller step never changes `total_frames`. -/
theorem JobStep.total_frames_eq {a b : Job} (h : JobStep a b) :
    b.total_frames = a.total_frames := by
  cases h <;> rfl

/-- A Job Controller step never decreases `processed_frames`. -/
theorem JobStep.processed_le {a b : Job} (h : JobStep a b) :
    a.processed_frames ≤ b.processed_frames := by
  cases h <;> simp

/-- A Job Controller step keeps `processed_frames` within `total_frames`. -/
theorem JobStep.processed_bound {a b : Job} (h : JobStep a b)
    (hw : a.processed_frames ≤ a.total_frames) :
    b.processed_frames ≤ b.total_frames := by
  cases h <;> simp_all
  omega

/-- No Job Controller step leaves a terminal status. -/
theorem JobStep.not_terminal {a b : Job} (h : JobStep a b) :
    a.status.isTerminal = false := by
  cases h <;> simp_all [JobStatus.isTerminal]

/-- A Job Controller step preserves the invariant that `error_message` is
absent on every status other than `failed`. -/
theorem JobStep.error_inv {a b : Job} (h : JobStep a b)
    (ha : a.status ≠ .failed → a.error_message = none) :
    b.status ≠ .failed → b.error_message = none := by
  cases h with
  | start hq =>
      intro _
      exact ha (by rw [hq]; decide)
  | frame n hp hlt =>
      intro _
      exact ha (by rw [hp]; decide)
  | complete hp he =>
      intro _
      exact ha (by rw [hp]; decide)
  | fail msg hp =>
      intro hb
      exact absurd rfl hb
  | cancel hp =>
      intro _
      exact ha (by rw [hp]; decide)

/-- Mapping a function that fixes closed tracks leaves a closed entry of
the track list unchanged at its position. -/
theorem get_map_closed_fixed (f : Track → Track)
    (hf : ∀ t : Track, t.closed = true → f t = t)
    (l : List Track) (i : Nat) (hi : i < l.length)
    (hc : (l.get ⟨i, hi⟩).closed = true) :
    ∃ hi2 : i < (l.map f).length, (l.map f).get ⟨i, hi2⟩ = l.get ⟨i, hi⟩ := by
  refine ⟨by simpa using hi, ?_⟩
  rw [List.get_eq_getElem, List.get_eq_getElem, List.getElem_map]
  exact hf _ hc

/-- Appending a new track at the end leaves every existing entry of the
track list unchanged at its position. -/
theorem get_append_one (l : List Track) (t : Track) (i : Nat) (hi : i < l.length) :
    ∃ hi2 : i < (l ++ [t]).length, (l ++ [t]).get ⟨i, hi2⟩ = l.get ⟨i, hi⟩ := by
  refine ⟨by simp; omega, ?_⟩
  rw [List.get_eq_getElem, List.get_eq_getElem, List.getElem_append_left hi]

/-- Transports an indexed-element fact along an equality of track lists. -/
theorem exists_get_of_eq {l1 l2 : List Track} (he : l1 = l2) {a : Track} (i : Nat)
    (h : ∃ h2 : i < l2.length, l2.get ⟨i, h2⟩ = a) :
    ∃ h1 : i < l1.length, l1.get ⟨i, h1⟩ = a := by
  subst he
  exact h

/-- Processing one candidate either appends a fresh track at the end of
the track list or maps the list with a function that touches only live
tracks bearing the matched id. -/
theorem stepCandidate_tracks (cfg : TrackerConfig) (c : PlateCandidate) (st : TrackerState) :
    (stepCandidate cfg c st).tracks = st.tracks ++ [newTrack st.nextId c] ∨
    ∃ t : Track, (stepCandidate cfg c st).tracks =
      st.tracks.map
        (fun u => if !u.closed && u.track_id == t.track_id then appendCandidate c u else u) := by
  unfold stepCandidate
  cases pickBest c.box (liveTracks st.tracks) with
  | none => exact Or.inl rfl
  | some t =>
      cases hm : candMatches cfg c t with
      | false => simp [hm]
      | true =>
          refine Or.inr ⟨t, ?_⟩
          simp [hm]

/-- A single tracker transition leaves every closed track unchanged at its
position in the track list. -/
theorem trackerStep_closed_fixed {cfg : TrackerConfig} {s s2 : TrackerState}
    (h : TrackerStep cfg s s2) (i : Nat) (hi : i < s.tracks.length)
    (hc : (s.tracks.get ⟨i, hi⟩).closed = true) :
    ∃ hi2 : i < s2.tracks.length, s2.tracks.get ⟨i, hi2⟩ = s.tracks.get ⟨i, hi⟩ := by
  cases h with
  | candidate c =>
      rcases stepCandidate_tracks cfg c s with heq | ⟨t, heq⟩
      · exact exists_get_of_eq heq i (get_append_one s.tracks (newTrack s.nextId c) i hi)
      · refine exists_get_of_eq heq i (get_map_closed_fixed _ ?_ s.tracks i hi hc)
        intro u hu
        simp [hu]
  | frameBoundary =>
      refine get_map_closed_fixed _ ?_ s.tracks i hi hc
      intro u hu
      simp [hu]
  | streamEnd =>
      refine get_map_closed_fixed _ ?_ s.tracks i hi hc
      intro u hu
      cases u
      simp_all [closeTrack]

/-! ## Claim theorems -/

/-- C1: throughout a Job's lifetime `processed_frames` is non-decreasing
and never exceeds `total_frames`: from any job state whose progress counter
is within bounds, every state reachable by Job Controller steps (hence
every later status poll of the same job) shows a `processed_frames` that is
at least the earlier value and at most `total_frames`. -/
theorem job_progress_monotone :
    ∀ j j2 : Job, j.processed_frames ≤ j.total_frames → JobReach j j2 →
      j.processed_frames ≤ j2.processed_frames ∧
        j2.processed_frames ≤ j2.total_frames := by
  intro j j2 hw h
  induction h with
  | refl => exact ⟨le_refl _, hw⟩
  | tail hab hbc ih =>
      obtain ⟨h1, h2⟩ := ih
      exact ⟨le_trans h1 hbc.processed_le, hbc.processed_bound h2⟩

/-- Witness for C1 at a concrete job: queued with 2 frames, started, then
one frame processed. -/
theorem job_progress_monotone_witness :
    jobQ.processed_frames ≤ jobP1.processed_frames ∧
      jobP1.processed_frames ≤ jobP1.total_frames := by
  refine job_progress_monotone jobQ jobP1 (by decide) ?_
  exact Relation.ReflTransGen.tail
    (Relation.ReflTransGen.single (JobStep.start jobQ rfl))
    (JobStep.frame jobP 0 rfl (by decide))

/-- C2: a Job's status is always one of queued, processing, completed,
failed, cancelled, and a job observed in a terminal status never changes
again: every state reachable from it is the state itself, so every later
poll observes the same status. -/
theorem job_status_machine :
    (∀ j : Job, j.status = .queued ∨ j.status = .processing ∨ j.status = .completed ∨
        j.status = .failed ∨ j.status = .cancelled) ∧
    ∀ j j2 : Job, j.status.isTerminal = true → JobReach j j2 → j2 = j := by
  constructor
  · intro j
    cases h : j.status <;> simp
  · intro j j2 ht h
    induction h with
    | refl => rfl
    | tail hab hbc ih =>
        subst ih
        have hf := hbc.not_terminal
        rw [ht] at hf
        cases hf

/-- Witness for C2 at a concrete completed job. -/
theorem job_status_machine_witness : jobDone = jobDone :=
  job_status_machine.2 jobDone jobDone (by decide) Relation.ReflTransGen.refl

/-- C3: the job returned for an image upload is already terminal —
completed or failed, never queued or processing — and the failed case is
exactly the failure of the synchronous processing, so it is distinguishable
at upload time and no polling is needed. -/
theorem image_job_synchronous :
    ∀ (d : Option Nat) (msg : String),
      ((runImageJob d msg).status = .completed ∨ (runImageJob d msg).status = .failed) ∧
      (runImageJob d msg).status ≠ .queued ∧
      (runImageJob d msg).status ≠ .processing ∧
      (runImageJob d msg).status.isTerminal = true ∧
      ((runImageJob d msg).status = .failed ↔ d = none) := by
  intro d msg
  cases d <;> simp [runImageJob, JobStatus.isTerminal]

/-- C4: `error_message` is non-null only on status `failed`: from any job
state satisfying the invariant (in particular a fresh queued job, whose
error is null), every reachable state whose status is queued, processing,
completed or cancelled has a null `error_message`. -/
theorem job_error_only_on_failed :
    ∀ j j2 : Job, (j.status ≠ .failed → j.error_message = none) → JobReach j j2 →
      j2.status ≠ .failed → j2.error_message = none := by
  intro j j2 hj h
  induction h with
  | refl => exact hj
  | tail hab hbc ih => exact hbc.error_inv ih

/-- Witness for C4: a fresh queued job polled after the start transition
shows no error message. -/
theorem job_error_only_on_failed_witness : jobP.error_message = none :=
  job_error_only_on_failed jobQ jobP (by decide)
    (Relation.ReflTransGen.single (JobStep.start jobQ rfl)) (by decide)

/-- C5: governorate classification is a pure deterministic function of the
plate shape — identical inputs give identical labels; the ordered rule
table is evaluated top to bottom with the first matching rule winning; and
an input matching no rule yields `unknown`. -/
theorem governorate_classifier_spec :
    (∀ (rules : List GovRule) (s t : PlateShape), s = t →
        classifyGovernorate rules s = classifyGovernorate rules t) ∧
    (∀ (r : GovRule) (rules : List GovRule) (s : PlateShape),
        classifyGovernorate (r :: rules) s =
          if r.matchesShape s then r.label else classifyGovernorate rules s) ∧
    (∀ (rules : List GovRule) (s : PlateShape),
        (∀ r ∈ rules, r.matchesShape s = false) →
        classifyGovernorate rules s = .unknown) := by
  refine ⟨?_, ?_, ?_⟩
  · intro rules s t hst
    rw [hst]
  · intro r rules s
    cases h : r.matchesShape s <;> simp [classifyGovernorate, List.find?, h]
  · intro rules s hall
    have hn : rules.find? (fun r => r.matchesShape s) = none := by
      rw [List.find?_eq_none]
      intro x hx
      simp [hall x hx]
    simp [classifyGovernorate, hn]

/-- Witness for C5 on the README's concrete table: the Cairo shape is
classified identically on repeated calls, and a shape matching no rule is
`unknown`. -/
theorem governorate_classifier_spec_witness :
    classifyGovernorate governorateTable demoShapeCairo =
      classifyGovernorate governorateTable demoShapeCairo ∧
    classifyGovernorate governorateTable demoShapeNone = .unknown :=
  ⟨governorate_classifier_spec.1 governorateTable demoShapeCairo demoShapeCairo rfl,
   governorate_classifier_spec.2.2 governorateTable demoShapeNone (by decide)⟩

/-- C6: track closure is monotonic — under every sequence of tracker
transitions (candidate processing, frame boundaries, end-of-stream
force-closure), a track that is closed stays at its position in the track
list completely unchanged: still closed, with no candidate ever appended. -/
theorem track_closure_monotone :
    ∀ (cfg : TrackerConfig) (s s2 : TrackerState), TrackerReach cfg s s2 →
      ∀ (i : Nat) (hi : i < s.tracks.length), (s.tracks.get ⟨i, hi⟩).closed = true →
        ∃ hi2 : i < s2.tracks.length, s2.tracks.get ⟨i, hi2⟩ = s.tracks.get ⟨i, hi⟩ := by
  intro cfg s s2 h
  induction h with
  | refl =>
      intro i hi _
      exact ⟨hi, rfl⟩
  | tail hab hbc ih =>
      intro i hi hc
      obtain ⟨hib, heq⟩ := ih i hi hc
      obtain ⟨hic, heq2⟩ := trackerStep_closed_fixed hbc i hib (by rw [heq]; exact hc)
      exact ⟨hic, by rw [heq2, heq]⟩

/-- Witness for C6: in the sample state the closed track at position 0
survives the end-of-stream force-closure unchanged. -/
theorem track_closure_monotone_witness :
    ∃ hi2 : 0 < (endOfStream demoState).tracks.length,
      (endOfStream demoState).tracks.get ⟨0, hi2⟩ =
        demoState.tracks.get ⟨0, by decide⟩ :=
  track_closure_monotone demoCfg demoState (endOfStream demoState)
    (Relation.ReflTransGen.single (TrackerStep.streamEnd demoState))
    0 (by decide) (by decide)

/-- C7: for every non-empty list of glyph detections the Plate Assembler's
sort is ordered by descending horizontal center with ties broken by
vertical center topmost first, it is a permutation of the input, and the
assembled string has exactly one character per glyph detection. -/
theorem plate_assembler_spec :
    ∀ gs : List GlyphDetection, gs ≠ [] →
      (sortGlyphs gs).Sorted glyphOrder ∧
      (sortGlyphs gs).Perm gs ∧
      (assembleString gs).length = gs.length := by
  intro gs _
  refine ⟨List.sorted_insertionSort glyphOrder gs, List.perm_insertionSort glyphOrder gs, ?_⟩
  have h : (assembleString gs).length =
      ((sortGlyphs gs).map (fun g => glyphChar g.cls)).length := rfl
  rw [h, List.length_map, sortGlyphs, List.length_insertionSort]

/-- Witness for C7 on a concrete two-glyph region. -/
theorem plate_assembler_spec_witness :
    demoGlyphs ≠ [] ∧
      ((sortGlyphs demoGlyphs).Sorted glyphOrder ∧
        (sortGlyphs demoGlyphs).Perm demoGlyphs ∧
        (assembleString demoGlyphs).length = demoGlyphs.length) :=
  ⟨by decide, plate_assembler_spec demoGlyphs (by decide)⟩

/-- C8: a 401 response makes `request` clear the stored token (a subsequent
`getToken` returns null) and throw; any other non-ok response makes it
throw while leaving the token store untouched. -/
theorem request_auth_spec :
    ∀ (st : TokenStore) (res : FetchResponse),
      (res.status = 401 →
        getToken (handleResponse st res).1 = none ∧
        (handleResponse st res).2 = .thrown "Unauthorized") ∧
      (res.status ≠ 401 → respOk res.status = false →
        (handleResponse st res).1 = st ∧
        ∃ m, (handleResponse st res).2 = .thrown m) := by
  intro st res
  constructor
  · intro h
    simp [handleResponse, h, clearToken, getToken]
  · intro h1 h2
    refine ⟨by simp [handleResponse, h1, h2], ?_⟩
    cases hd : res.detailField with
    | none =>
        exact ⟨jsOrElse (some res.statusText) "API Error",
          by simp [handleResponse, h1, h2, hd]⟩
    | some d =>
        exact ⟨jsOrElse d "API Error",
          by simp [handleResponse, h1, h2, hd]⟩

/-- Witness for C8 at concrete responses: a 401 clears the stored token and
throws, a 500 throws with the token intact. -/
theorem request_auth_spec_witness :
    (getToken (handleResponse (some "tok") res401).1 = none ∧
      (handleResponse (some "tok") res401).2 = .thrown "Unauthorized") ∧
    ((handleResponse (some "tok") res500).1 = some "tok" ∧
      ∃ m, (handleResponse (some "tok") res500).2 = .thrown m) :=
  ⟨(request_auth_spec (some "tok") res401).1 (by decide),
   (request_auth_spec (some "tok") res500).2 (by decide) (by decide)⟩

/-- C9 counterexample: the claim's iff "Authorization present iff a token
is stored" fails at a stored empty-string token — `localStorage` holds
`""`, which is a stored token (`getToken` returns non-null), yet JavaScript
truthiness of `if (token)` makes `request` set no Authorization header. -/
theorem request_headers_claim_counterexample :
    ¬((∃ v, buildHeaders noHeaders (some "") false "Authorization" = some v) ↔
        (some "" : Option String) ≠ none) := by
  intro h
  obtain ⟨v, hv⟩ := h.mpr (by simp)
  rw [show buildHeaders noHeaders (some "") false "Authorization" = none from rfl] at hv
  exact Option.noConfusion hv

/-- C9 amended: for every call of `request` (no call site passes its own
Content-Type or Authorization header), the final headers carry
`Content-Type: application/json` exactly when the body is not FormData,
and `Authorization: Bearer <token>` exactly when the stored token is
non-null and non-empty (JavaScript truthiness of `if (token)`). -/
theorem request_headers_spec :
    ∀ (caller : String → Option String) (token : Option String) (fd : Bool),
      caller "Content-Type" = none →
      caller "Authorization" = none →
      (buildHeaders caller token fd "Content-Type" = some "application/json" ↔ fd = false) ∧
      ((∃ v, buildHeaders caller token fd "Authorization" = some v) ↔
        (∃ t, token = some t ∧ t ≠ "")) ∧
      (∀ t, token = some t → t ≠ "" →
        buildHeaders caller token fd "Authorization" = some ("Bearer " ++ t)) := by
  intro caller token fd hct hauth
  have hne : ("Authorization" : String) ≠ "Content-Type" := by decide
  have hne2 : ("Content-Type" : String) ≠ "Authorization" := by decide
  cases token with
  | none => cases fd <;> simp_all [buildHeaders, headerSet]
  | some t =>
      cases ht : t.isEmpty with
      | true =>
          have hteq : t = "" := (String.isEmpty_iff t).mp ht
          cases fd <;> simp_all [buildHeaders, headerSet]
      | false =>
          have htne : t ≠ "" := by
            intro hcon
            rw [hcon] at ht
            exact absurd ht (by decide)
          cases fd <;> simp_all [buildHeaders, headerSet]

/-- Witness for C9 at a concrete call: a stored non-empty token and a JSON
body. -/
theorem request_headers_spec_witness :
    buildHeaders noHeaders (some "abc") false "Content-Type" = some "application/json" ∧
    buildHeaders noHeaders (some "abc") false "Authorization" = some ("Bearer " ++ "abc") :=
  ⟨(request_headers_spec noHeaders (some "abc") false rfl rfl).1.mpr rfl,
   (request_headers_spec noHeaders (some "abc") false rfl rfl).2.2 "abc" rfl (by decide)⟩

/-- C10: `staticUrl` returns the empty string on null, undefined and the
empty path, and on every non-empty path returns exactly the API base URL,
then "/static/", then the path. -/
theorem staticUrl_spec :
    staticUrl .null = "" ∧ staticUrl .undefined = "" ∧ staticUrl (.str "") = "" ∧
    ∀ s : String, s ≠ "" → staticUrl (.str s) = API_BASE ++ "/static/" ++ s := by
  refine ⟨rfl, rfl, rfl, ?_⟩
  intro s hs
  have he : s.isEmpty = false := by
    cases h : s.isEmpty
    · rfl
    · exact absurd ((String.isEmpty_iff s).mp h) hs
  simp [staticUrl, JsStr.isFalsy, JsStr.asJsString, he]

/-- Witness for C10 at a concrete non-empty path. -/
theorem staticUrl_spec_witness :
    ("abc.jpg" : String) ≠ "" ∧
      staticUrl (.str "abc.jpg") = API_BASE ++ "/static/" ++ "abc.jpg" :=
  ⟨by decide, staticUrl_spec.2.2.2 "abc.jpg" (by decide)⟩

end Elpr
